import Mathlib

/-!
Verification of the magic-link authentication core of `py_life`.

Shallow embedding of `src/auth_utils.py` and
`src/py_life/models/core/models.py`:
- time is modelled as `Nat` seconds (`datetime.utcnow()` becomes an explicit
  `now : Nat` parameter; `timedelta(minutes=15)` is `15 * 60`);
- the database is an explicit `DB` value threaded through operations;
  SQLAlchemy's `query(...).filter_by(...).first()` becomes `List.find?`;
- `secrets.token_urlsafe(32)` (a fresh random token) and the UUID primary
  keys become explicit parameters / a fresh-id counter: randomness is
  replaced by explicit freshness hypotheses where a claim needs them;
- a Python exception inside the `try` block becomes an explicit optional
  failure point; `session.rollback()` returns the original `DB`.
-/

namespace PyLife

/-- `users` table row (`models.py`, class `User`): UUID id modelled as `Nat`. -/
structure User where
  id : Nat
  email : String
  name : String
deriving DecidableEq, Repr

/-- `magic_links` table row (`models.py`, class `MagicLink`). -/
structure MagicLink where
  token : String
  expires_at : Nat
  used_at : Option Nat
  user_id : Nat
deriving DecidableEq, Repr

/-- The persisted, committed database state. `next_user_id` models the
fresh primary-key supply for new `User` rows. -/
structure DB where
  users : List User
  magic_links : List MagicLink
  next_user_id : Nat
deriving DecidableEq, Repr

/-- `MagicLink.is_expired`: `datetime.utcnow() > self.expires_at`. -/
def MagicLink.is_expired (ml : MagicLink) (now : Nat) : Bool :=
  now > ml.expires_at

/-- `MagicLink.is_used`: `self.used_at is not None`. -/
def MagicLink.is_used (ml : MagicLink) : Bool :=
  ml.used_at.isSome

/-- `MagicLink.is_valid`: `not self.is_expired() and not self.is_used()`. -/
def MagicLink.is_valid (ml : MagicLink) (now : Nat) : Bool :=
  !(ml.is_expired now) && !(ml.is_used)

/-- `MagicLink.mark_as_used`: `self.used_at = datetime.utcnow()`. -/
def MagicLink.mark_as_used (ml : MagicLink) (now : Nat) : MagicLink :=
  { ml with used_at := some now }

/-- `session.query(User).filter_by(email=email).first()`. -/
def findUserByEmail (db : DB) (email : String) : Option User :=
  db.users.find? (fun u => u.email == email)

/-- `session.query(MagicLink).filter_by(token=token).first()`. -/
def findLinkByToken (db : DB) (tok : String) : Option MagicLink :=
  db.magic_links.find? (fun l => l.token == tok)

/-- `session.query(User).filter_by(id=uid).first()`. -/
def findUserById (db : DB) (uid : Nat) : Option User :=
  db.users.find? (fun u => u.id == uid)

/-- `email.split('@')[0]`, the derived display name in `create_magic_link`. -/
def localPart (email : String) : String :=
  (email.splitOn "@").headD ""

/-- `BASE_URL` default from `os.getenv('BASE_URL', 'http://localhost:3000')`. -/
def baseUrl : String := "http://localhost:3000"

/-- The URL `f"{base_url}/verify?token={token}"` built by `create_magic_link`. -/
def verifyUrl (tok : String) : String :=
  baseUrl ++ "/verify?token=" ++ tok

/-- The `MagicLink(token=token, expires_at=..., user_id=user.id)` constructor
call in `create_magic_link`: `expires_at = utcnow() + timedelta(minutes=15)`. -/
def newLink (tok : String) (now : Nat) (uid : Nat) : MagicLink :=
  { token := tok, expires_at := now + 15 * 60, used_at := none, user_id := uid }

/-- Failure point for persistence: which statement inside the `try` block of
`create_magic_link` raises. Steps: the user query, `session.add(user)` /
`session.flush()`, `session.add(magic_link)`, `session.commit()`. -/
inductive FailStep
  | queryUser
  | insertUser
  | insertLink
  | commit
deriving DecidableEq, Repr

/-- `create_magic_link(email)` from `auth_utils.py`, with the generated token
and the current time as explicit parameters and an optional injected
persistence failure (`fail = some s` means statement `s` raises, if reached).
`add`/`flush` only stage pending rows in the session; the `DB` changes only at
`session.commit()`, and the unique constraint on `magic_links.token` makes the
commit itself fail when the token already exists. Any raised exception is
caught, `session.rollback()` discards the pending rows, and `None` is
returned. -/
def create_magic_link_f (db : DB) (email tok : String) (now : Nat)
    (fail : Option FailStep) : Option String × DB :=
  if fail = some .queryUser then (none, db)
  else
    match findUserByEmail db email with
    | some u =>
      if fail = some .insertLink then (none, db)
      else if fail = some .commit then (none, db)
      else if (findLinkByToken db tok).isSome then (none, db)
      else (some (verifyUrl tok),
            { db with magic_links := db.magic_links ++ [newLink tok now u.id] })
    | none =>
      if fail = some .insertUser then (none, db)
      else if fail = some .insertLink then (none, db)
      else if fail = some .commit then (none, db)
      else if (findLinkByToken db tok).isSome then (none, db)
      else
        let u : User :=
          { id := db.next_user_id, email := email, name := localPart email }
        (some (verifyUrl tok),
         { users := db.users ++ [u],
           magic_links := db.magic_links ++ [newLink tok now u.id],
           next_user_id := db.next_user_id + 1 })

/-- `create_magic_link(email)` with no injected failure. -/
def create_magic_link (db : DB) (email tok : String) (now : Nat) :
    Option String × DB :=
  create_magic_link_f db email tok now none

/-- `validate_token(token)` from `auth_utils.py`, with the committed state
threaded explicitly: the function only runs queries, so every branch returns
the state it was given. Result mirrors the Python triple
`(is_valid, user, magic_link)`. -/
def validate_token_s (db : DB) (tok : String) (now : Nat) :
    (Bool × Option User × Option MagicLink) × DB :=
  match findLinkByToken db tok with
  | none => ((false, none, none), db)
  | some ml =>
    if ml.is_valid now = false then ((false, none, none), db)
    else
      match findUserById db ml.user_id with
      | none => ((false, none, none), db)
      | some u => ((true, some u, some ml), db)

/-- The value returned by `validate_token(token)`. -/
def validate_token (db : DB) (tok : String) (now : Nat) :
    Bool × Option User × Option MagicLink :=
  (validate_token_s db tok now).1

/-- The UPDATE produced by `magic_link_obj.mark_as_used()` + `session.commit()`
in `consume_token`: the row returned by `.first()` (the first row matching the
token) gets `used_at` set; every other row is untouched. -/
def mark_used_first : List MagicLink → String → Nat → List MagicLink
  | [], _, _ => []
  | l :: ls, tok, now =>
    if l.token == tok then l.mark_as_used now :: ls
    else l :: mark_used_first ls tok now

/-- `consume_token(token)` from `auth_utils.py`: validate, then re-query the
link and mark it used, committing the update. If the re-query returned `None`,
`.mark_as_used()` would raise on `None` and the `except` branch rolls back and
returns `(False, None)`. The single `now` stands for both `utcnow()` reads
inside one call. -/
def consume_token (db : DB) (tok : String) (now : Nat) :
    (Bool × Option User) × DB :=
  let r := validate_token db tok now
  if r.1 = false then ((false, none), db)
  else
    match findLinkByToken db tok with
    | none => ((false, none), db)
    | some _ =>
      ((true, r.2.1), { db with magic_links := mark_used_first db.magic_links tok now })

/-! ### Supporting lemmas -/

theorem is_valid_eq_true_iff (ml : MagicLink) (now : Nat) :
    ml.is_valid now = true ↔ (ml.used_at = none ∧ now ≤ ml.expires_at) := by
  cases h : ml.used_at <;>
    simp [MagicLink.is_valid, MagicLink.is_expired, MagicLink.is_used, h]

theorem validate_token_s_snd (db : DB) (tok : String) (now : Nat) :
    (validate_token_s db tok now).2 = db := by
  unfold validate_token_s
  split
  · rfl
  · split
    · rfl
    · split <;> rfl

theorem validate_token_of_not_found (db : DB) (tok : String) (now : Nat)
    (h : findLinkByToken db tok = none) :
    validate_token db tok now = (false, none, none) := by
  unfold validate_token validate_token_s
  rw [h]

theorem validate_token_of_invalid (db : DB) (tok : String) (now : Nat)
    (ml : MagicLink) (h : findLinkByToken db tok = some ml)
    (hv : ml.is_valid now = false) :
    validate_token db tok now = (false, none, none) := by
  unfold validate_token validate_token_s
  rw [h]
  simp [hv]

theorem validate_token_of_orphaned (db : DB) (tok : String) (now : Nat)
    (ml : MagicLink) (h : findLinkByToken db tok = some ml)
    (hv : ml.is_valid now = true) (hu : findUserById db ml.user_id = none) :
    validate_token db tok now = (false, none, none) := by
  unfold validate_token validate_token_s
  rw [h]
  simp [hv, hu]

theorem validate_token_of_valid (db : DB) (tok : String) (now : Nat)
    (ml : MagicLink) (u : User) (h : findLinkByToken db tok = some ml)
    (hv : ml.is_valid now = true) (hu : findUserById db ml.user_id = some u) :
    validate_token db tok now = (true, some u, some ml) := by
  unfold validate_token validate_token_s
  rw [h]
  simp [hv, hu]

theorem validate_token_false_shape (db : DB) (tok : String) (now : Nat)
    (h : (validate_token db tok now).1 = false) :
    validate_token db tok now = (false, none, none) := by
  rcases hfind : findLinkByToken db tok with _ | ml
  · exact validate_token_of_not_found db tok now hfind
  · cases hv : ml.is_valid now with
    | false => exact validate_token_of_invalid db tok now ml hfind hv
    | true =>
      rcases hu : findUserById db ml.user_id with _ | u
      · exact validate_token_of_orphaned db tok now ml hfind hv hu
      · rw [validate_token_of_valid db tok now ml u hfind hv hu] at h
        simp at h

theorem consume_token_of_validate_false (db : DB) (tok : String) (now : Nat)
    (h : (validate_token db tok now).1 = false) :
    consume_token db tok now = ((false, none), db) := by
  unfold consume_token
  simp [h]

theorem consume_token_of_invalid (db : DB) (tok : String) (now : Nat)
    (ml : MagicLink) (h : findLinkByToken db tok = some ml)
    (hv : ml.is_valid now = false) :
    consume_token db tok now = ((false, none), db) := by
  apply consume_token_of_validate_false
  rw [validate_token_of_invalid db tok now ml h hv]

theorem consume_token_of_valid (db : DB) (tok : String) (now : Nat)
    (ml : MagicLink) (u : User) (h : findLinkByToken db tok = some ml)
    (hv : ml.is_valid now = true) (hu : findUserById db ml.user_id = some u) :
    consume_token db tok now =
      ((true, some u),
       { db with magic_links := mark_used_first db.magic_links tok now }) := by
  unfold consume_token
  rw [validate_token_of_valid db tok now ml u h hv hu]
  simp [h]

theorem mark_used_first_find_self (ls : List MagicLink) (tok : String) (now : Nat)
    (ml : MagicLink) (h : ls.find? (fun l => l.token == tok) = some ml) :
    (mark_used_first ls tok now).find? (fun l => l.token == tok) =
      some (ml.mark_as_used now) := by
  induction ls with
  | nil => simp at h
  | cons a as ih =>
    by_cases ha : (a.token == tok) = true
    · rw [List.find?_cons_of_pos (p := fun (l : MagicLink) => l.token == tok) _ ha] at h
      cases h
      simp only [mark_used_first, if_pos ha]
      exact List.find?_cons_of_pos (p := fun (l : MagicLink) => l.token == tok) _
        (by simpa [MagicLink.mark_as_used] using ha)
    · rw [List.find?_cons_of_neg (p := fun (l : MagicLink) => l.token == tok) _ ha] at h
      simp only [mark_used_first, if_neg ha]
      rw [List.find?_cons_of_neg (p := fun (l : MagicLink) => l.token == tok) _ ha]
      exact ih h

theorem mark_used_first_find_other (ls : List MagicLink) (tok tok2 : String)
    (now : Nat) (hne : tok2 ≠ tok) :
    (mark_used_first ls tok now).find? (fun l => l.token == tok2) =
      ls.find? (fun l => l.token == tok2) := by
  induction ls with
  | nil => rfl
  | cons a as ih =>
    by_cases ha : (a.token == tok) = true
    · have ha' : a.token = tok := by simpa using ha
      have h1 : ¬ (((a.mark_as_used now).token == tok2) = true) := by
        simp [MagicLink.mark_as_used, ha']
        exact fun h => hne h.symm
      have h2 : ¬ ((a.token == tok2) = true) := by
        simp [ha']
        exact fun h => hne h.symm
      simp only [mark_used_first, if_pos ha]
      rw [List.find?_cons_of_neg (p := fun (l : MagicLink) => l.token == tok2) _ h1,
        List.find?_cons_of_neg (p := fun (l : MagicLink) => l.token == tok2) _ h2]
    · simp only [mark_used_first, if_neg ha]
      by_cases hp : (a.token == tok2) = true
      · rw [List.find?_cons_of_pos (p := fun (l : MagicLink) => l.token == tok2) _ hp,
          List.find?_cons_of_pos (p := fun (l : MagicLink) => l.token == tok2) _ hp]
      · rw [List.find?_cons_of_neg (p := fun (l : MagicLink) => l.token == tok2) _ hp,
          List.find?_cons_of_neg (p := fun (l : MagicLink) => l.token == tok2) _ hp]
        exact ih

theorem find?_append_singleton {α : Type} (p : α → Bool) (ls : List α) (a : α)
    (h : ls.find? p = none) (ha : p a = true) :
    (ls ++ [a]).find? p = some a := by
  rw [List.find?_append, h, List.find?_cons_of_pos _ ha]
  rfl

theorem find?_append_singleton_none {α : Type} (p : α → Bool) (ls : List α)
    (a : α) (h : ls.find? p = none) (ha : p a = false) :
    (ls ++ [a]).find? p = none := by
  rw [List.find?_append, h, List.find?_cons_of_neg _ (by simp [ha])]
  rfl

theorem find?_append_keep {α : Type} (p : α → Bool) (ls : List α) (a x : α)
    (h : ls.find? p = some x) : (ls ++ [a]).find? p = some x := by
  rw [List.find?_append, h]
  rfl

theorem create_magic_link_existing (db : DB) (email tok : String) (now : Nat)
    (u : User) (hu : findUserByEmail db email = some u)
    (hfresh : findLinkByToken db tok = none) :
    create_magic_link db email tok now =
      (some (verifyUrl tok),
       { db with magic_links := db.magic_links ++ [newLink tok now u.id] }) := by
  unfold create_magic_link create_magic_link_f
  rw [hu]
  simp [hfresh]

theorem create_magic_link_new (db : DB) (email tok : String) (now : Nat)
    (hu : findUserByEmail db email = none)
    (hfresh : findLinkByToken db tok = none) :
    create_magic_link db email tok now =
      (some (verifyUrl tok),
       { users := db.users ++
           [{ id := db.next_user_id, email := email, name := localPart email }],
         magic_links := db.magic_links ++ [newLink tok now db.next_user_id],
         next_user_id := db.next_user_id + 1 }) := by
  unfold create_magic_link create_magic_link_f
  rw [hu]
  simp [hfresh]

/-! ### Example states used by witnesses and counterexamples -/

/-- One user whose magic link expires at time 100 and is unused. -/
def dbExpiredLink : DB :=
  { users := [{ id := 0, email := "a@x.com", name := "a" }],
    magic_links := [{ token := "t", expires_at := 100, used_at := none, user_id := 0 }],
    next_user_id := 1 }

/-- One user whose magic link is far from expiry but already used at time 5. -/
def dbUsedLink : DB :=
  { users := [{ id := 0, email := "a@x.com", name := "a" }],
    magic_links := [{ token := "t", expires_at := 100000, used_at := some 5, user_id := 0 }],
    next_user_id := 1 }

/-- One user with one unused link valid until time 1000. -/
def dbLiveLink : DB :=
  { users := [{ id := 0, email := "a@x.com", name := "a" }],
    magic_links := [{ token := "t", expires_at := 1000, used_at := none, user_id := 0 }],
    next_user_id := 1 }

/-! ### Claims -/

/-- C2 counterexample: the claim says a token is valid iff `used_at` is null
and current time is strictly below `expires_at`, making it invalid at
`now = expires_at`. The code (`is_expired` uses strict `>`) classifies an
unused token with `expires_at = 100` as still valid at `now = 100`, so the
claimed equivalence is false there. -/
theorem token_valid_at_exact_expiry :
    ¬ ((MagicLink.is_valid
          { token := "t", expires_at := 100, used_at := none, user_id := 0 }
          100 = true) ↔
       (({ token := "t", expires_at := 100, used_at := none, user_id := 0 }
          : MagicLink).used_at = none ∧
        100 < ({ token := "t", expires_at := 100, used_at := none, user_id := 0 }
          : MagicLink).expires_at)) := by
  decide

/-- C2 (amended): a token is classified valid iff `used_at` is null and the
current time is less than **or equal to** `expires_at`; in particular, at
current time exactly `expires_at` the token is still valid. -/
theorem token_valid_iff_unused_and_time_le_expiry (ml : MagicLink) (now : Nat) :
    ml.is_valid now = true ↔ (ml.used_at = none ∧ now ≤ ml.expires_at) :=
  is_valid_eq_true_iff ml now

/-- C4 counterexample: an expired-token failure, an already-used-token failure
and a not-found failure all produce exactly the same result value
`(False, None, None)`, so the sub-reasons are not distinguishable in the
error detail. -/
theorem failure_reasons_not_distinguishable :
    (validate_token dbExpiredLink "t" 101).1 = false ∧
    (validate_token dbUsedLink "t" 101).1 = false ∧
    validate_token dbExpiredLink "t" 101 = validate_token dbUsedLink "t" 101 ∧
    validate_token dbUsedLink "t" 101 = validate_token dbUsedLink "nosuch" 101 :=
  ⟨rfl, rfl, rfl, rfl⟩

/-- C4 (amended): the error result does not distinguish the failure
sub-reason: every failing validation returns the same triple
`(False, None, None)` and every failing consumption returns
`(False, None)` with the state unchanged, whether the token was not found,
expired, already used, or orphaned. -/
theorem failing_results_uniform (db : DB) (tok : String) (now : Nat)
    (h : (validate_token db tok now).1 = false) :
    validate_token db tok now = (false, none, none) ∧
    consume_token db tok now = ((false, none), db) :=
  ⟨validate_token_false_shape db tok now h,
   consume_token_of_validate_false db tok now h⟩

theorem failing_results_uniform_witness :
    validate_token dbUsedLink "t" 7 = (false, none, none) ∧
    consume_token dbUsedLink "t" 7 = ((false, none), dbUsedLink) :=
  failing_results_uniform dbUsedLink "t" 7 (by decide)

/-- C5 counterexample: the failure result for an expired, never-used token is
identical to the failure result for a string matching no token at all, so the
failure does not carry a distinct `expired` reason. -/
theorem expired_failure_equals_not_found_failure :
    validate_token dbExpiredLink "t" 101 = validate_token dbExpiredLink "nosuch" 101 ∧
    (validate_token dbExpiredLink "t" 101).1 = false :=
  ⟨rfl, rfl⟩

/-- C5 (amended): for every stored token past its expiry at verification time
and never consumed, validation fails — with the same generic failure value as
every other failure, there being no distinct `expired` reason in the result —
and consumption fails leaving the state unchanged: the token is not
consumed. -/
theorem expired_token_rejected_not_consumed (db : DB) (tok : String)
    (now : Nat) (ml : MagicLink) (h : findLinkByToken db tok = some ml)
    (_hused : ml.used_at = none) (hexp : ml.expires_at < now) :
    validate_token db tok now = (false, none, none) ∧
    consume_token db tok now = ((false, none), db) := by
  have hv : ml.is_valid now = false := by
    simp [MagicLink.is_valid, MagicLink.is_expired, hexp]
  exact ⟨validate_token_of_invalid db tok now ml h hv,
    consume_token_of_invalid db tok now ml h hv⟩

theorem expired_token_rejected_not_consumed_witness :
    validate_token dbExpiredLink "t" 101 = (false, none, none) ∧
    consume_token dbExpiredLink "t" 101 = ((false, none), dbExpiredLink) :=
  expired_token_rejected_not_consumed dbExpiredLink "t" 101
    { token := "t", expires_at := 100, used_at := none, user_id := 0 }
    (by decide) (by decide) (by decide)

/-- C6: for every string that is not the token value of any stored magic
link, validation returns the failure triple without a user and consumption
fails without a user, leaving the state unchanged. -/
theorem unknown_token_rejected (db : DB) (tok : String) (now : Nat)
    (h : ∀ l ∈ db.magic_links, l.token ≠ tok) :
    validate_token db tok now = (false, none, none) ∧
    consume_token db tok now = ((false, none), db) := by
  have hf : findLinkByToken db tok = none := by
    unfold findLinkByToken
    rw [List.find?_eq_none]
    intro l hl
    simpa using h l hl
  refine ⟨validate_token_of_not_found db tok now hf, ?_⟩
  apply consume_token_of_validate_false
  rw [validate_token_of_not_found db tok now hf]

theorem unknown_token_rejected_witness :
    validate_token dbLiveLink "zzz" 5 = (false, none, none) ∧
    consume_token dbLiveLink "zzz" 5 = ((false, none), dbLiveLink) :=
  unknown_token_rejected dbLiveLink "zzz" 5 (by decide)

/-- C10: `validate_token` is observationally read-only: for every database
state, token string and current time, the state after the call is exactly the
state before, in every branch (token not found, invalid, orphaned user, or
valid). -/
theorem validate_token_read_only (db : DB) (tok : String) (now : Nat) :
    (validate_token_s db tok now).2 = db ∧
    validate_token_s db tok now = (validate_token db tok now, db) := by
  have h := validate_token_s_snd db tok now
  exact ⟨h, Prod.ext rfl h⟩

/-- C1: on a valid token, the first `consume_token` call returns success with
the owning user and sets `used_at` to the consumption time; any later
`consume_token` call on the resulting state fails and changes nothing; and
`used_at` only ever transitions from null to a timestamp — any link already
stamped is left completely unchanged by a consume call. -/
theorem consume_token_exactly_once (db : DB) (tok : String) (now now2 : Nat)
    (u : User) (ml : MagicLink)
    (hfind : findLinkByToken db tok = some ml)
    (hvalid : ml.is_valid now = true)
    (huser : findUserById db ml.user_id = some u) :
    (consume_token db tok now).1 = (true, some u) ∧
    findLinkByToken (consume_token db tok now).2 tok =
      some (ml.mark_as_used now) ∧
    consume_token (consume_token db tok now).2 tok now2 =
      ((false, none), (consume_token db tok now).2) ∧
    (∀ tok2 x ml2, findLinkByToken db tok2 = some ml2 → ml2.used_at = some x →
      findLinkByToken (consume_token db tok now).2 tok2 = some ml2) := by
  have hc := consume_token_of_valid db tok now ml u hfind hvalid huser
  rw [hc]
  have hfind2 : findLinkByToken
      { db with magic_links := mark_used_first db.magic_links tok now } tok =
      some (ml.mark_as_used now) :=
    mark_used_first_find_self db.magic_links tok now ml hfind
  refine ⟨rfl, hfind2, ?_, ?_⟩
  · have hinv : (ml.mark_as_used now).is_valid now2 = false := by
      simp [MagicLink.mark_as_used, MagicLink.is_valid, MagicLink.is_used]
    exact consume_token_of_invalid _ tok now2 _ hfind2 hinv
  · intro tok2 x ml2 hml2 hx
    by_cases he : tok2 = tok
    · subst he
      obtain rfl : ml = ml2 := Option.some.inj (hfind.symm.trans hml2)
      have hnone : ml.used_at = none :=
        ((is_valid_eq_true_iff ml now).mp hvalid).1
      rw [hnone] at hx
      cases hx
    · show (mark_used_first db.magic_links tok now).find?
        (fun (l : MagicLink) => l.token == tok2) = some ml2
      rw [mark_used_first_find_other db.magic_links tok tok2 now he]
      exact hml2

theorem consume_token_exactly_once_witness :
    (consume_token dbLiveLink "t" 10).1 =
      (true, some { id := 0, email := "a@x.com", name := "a" }) ∧
    findLinkByToken (consume_token dbLiveLink "t" 10).2 "t" =
      some { token := "t", expires_at := 1000, used_at := some 10, user_id := 0 } ∧
    consume_token (consume_token dbLiveLink "t" 10).2 "t" 20 =
      ((false, none), (consume_token dbLiveLink "t" 10).2) := by
  have h := consume_token_exactly_once dbLiveLink "t" 10 20
    { id := 0, email := "a@x.com", name := "a" }
    { token := "t", expires_at := 1000, used_at := none, user_id := 0 }
    (by decide) (by decide) (by decide)
  exact ⟨h.1, h.2.1, h.2.2.1⟩

/-- C8: every successful issuance stores a link whose `expires_at` equals the
issuance time plus the fixed 15-minute TTL, initially unused. -/
theorem issued_link_expires_after_ttl (db : DB) (email tok : String)
    (now : Nat) (h : (create_magic_link db email tok now).1 ≠ none) :
    ∃ l, findLinkByToken (create_magic_link db email tok now).2 tok = some l ∧
      l.expires_at = now + 15 * 60 ∧ l.used_at = none := by
  rcases hfresh : findLinkByToken db tok with _ | l0
  · rcases hu : findUserByEmail db email with _ | u
    · rw [create_magic_link_new db email tok now hu hfresh]
      refine ⟨newLink tok now db.next_user_id, ?_, rfl, rfl⟩
      exact find?_append_singleton _ _ _ hfresh (by simp [newLink])
    · rw [create_magic_link_existing db email tok now u hu hfresh]
      refine ⟨newLink tok now u.id, ?_, rfl, rfl⟩
      exact find?_append_singleton _ _ _ hfresh (by simp [newLink])
  · exfalso
    apply h
    have hdup : (findLinkByToken db tok).isSome = true := by rw [hfresh]; rfl
    unfold create_magic_link create_magic_link_f
    rcases hu : findUserByEmail db email with _ | u <;> simp [hdup]

theorem issued_link_expires_after_ttl_witness :
    (create_magic_link dbLiveLink "b@x.com" "t2" 50).1 ≠ none ∧
    ∃ l, findLinkByToken (create_magic_link dbLiveLink "b@x.com" "t2" 50).2 "t2" =
        some l ∧ l.expires_at = 50 + 15 * 60 ∧ l.used_at = none :=
  ⟨by decide,
   issued_link_expires_after_ttl dbLiveLink "b@x.com" "t2" 50 (by decide)⟩

/-- C9: issuance is atomic. For every starting state and every possible
injected persistence failure point, either the call signals failure
(returns `None`) and the committed state is exactly the original — full
rollback, since all pending rows live in the session until the single
`commit()` — or it succeeds and the committed state contains both the
resolved account for the email and the new token record referencing that
account's id. No partial state (account without its token, or token without
its account) is ever committed. -/
theorem issuance_rolls_back_or_commits_whole (db : DB) (email tok : String)
    (now : Nat) (fail : Option FailStep) :
    ((create_magic_link_f db email tok now fail).1 = none ∧
     (create_magic_link_f db email tok now fail).2 = db) ∨
    ((create_magic_link_f db email tok now fail).1 ≠ none ∧
     ∃ u l,
       findUserByEmail (create_magic_link_f db email tok now fail).2 email =
         some u ∧
       findLinkByToken (create_magic_link_f db email tok now fail).2 tok =
         some l ∧
       l.user_id = u.id) := by
  by_cases h0 : fail = some .queryUser
  · left
    unfold create_magic_link_f
    rw [if_pos h0]
    exact ⟨rfl, rfl⟩
  · unfold create_magic_link_f
    rw [if_neg h0]
    rcases hu : findUserByEmail db email with _ | u <;> dsimp only
    · by_cases h1 : fail = some .insertUser
      · left
        rw [if_pos h1]
        exact ⟨rfl, rfl⟩
      · rw [if_neg h1]
        by_cases h2 : fail = some .insertLink
        · left
          rw [if_pos h2]
          exact ⟨rfl, rfl⟩
        · rw [if_neg h2]
          by_cases h3 : fail = some .commit
          · left
            rw [if_pos h3]
            exact ⟨rfl, rfl⟩
          · rw [if_neg h3]
            by_cases h4 : (findLinkByToken db tok).isSome = true
            · left
              rw [if_pos h4]
              exact ⟨rfl, rfl⟩
            · rw [if_neg h4]
              have hfresh : findLinkByToken db tok = none :=
                Option.not_isSome_iff_eq_none.mp h4
              right
              refine ⟨by simp, ?_⟩
              refine ⟨{ id := db.next_user_id, email := email,
                        name := localPart email },
                      newLink tok now db.next_user_id, ?_, ?_, rfl⟩
              · exact find?_append_singleton _ _ _ hu (by simp)
              · exact find?_append_singleton _ _ _ hfresh (by simp [newLink])
    · by_cases h2 : fail = some .insertLink
      · left
        rw [if_pos h2]
        exact ⟨rfl, rfl⟩
      · rw [if_neg h2]
        by_cases h3 : fail = some .commit
        · left
          rw [if_pos h3]
          exact ⟨rfl, rfl⟩
        · rw [if_neg h3]
          by_cases h4 : (findLinkByToken db tok).isSome = true
          · left
            rw [if_pos h4]
            exact ⟨rfl, rfl⟩
          · rw [if_neg h4]
            have hfresh : findLinkByToken db tok = none :=
              Option.not_isSome_iff_eq_none.mp h4
            right
            refine ⟨by simp, ?_⟩
            exact ⟨u, newLink tok now u.id, hu,
              find?_append_singleton _ _ _ hfresh (by simp [newLink]), rfl⟩

/-- C7: issuing twice for the same email (with fresh, distinct random
tokens) resolves both calls to the same account id — in particular the
second call creates no account row — and produces two distinct token
records, both unused and each carrying its own full 15-minute window. -/
theorem issue_twice_same_account (db : DB) (email tok1 tok2 : String)
    (t1 t2 : Nat) (h1 : findLinkByToken db tok1 = none)
    (h2 : findLinkByToken db tok2 = none) (hne : tok1 ≠ tok2) :
    ∃ l1 l2,
      findLinkByToken (create_magic_link (create_magic_link db email tok1 t1).2
        email tok2 t2).2 tok1 = some l1 ∧
      findLinkByToken (create_magic_link (create_magic_link db email tok1 t1).2
        email tok2 t2).2 tok2 = some l2 ∧
      l1.user_id = l2.user_id ∧ l1.token ≠ l2.token ∧
      l1.used_at = none ∧ l2.used_at = none ∧
      l1.expires_at = t1 + 15 * 60 ∧ l2.expires_at = t2 + 15 * 60 ∧
      (create_magic_link (create_magic_link db email tok1 t1).2
        email tok2 t2).2.users = (create_magic_link db email tok1 t1).2.users := by
  have hpred1 : ((newLink tok1 t1 db.next_user_id).token == tok2) = false := by
    simp [newLink]
    exact hne
  rcases hu : findUserByEmail db email with _ | u
  · rw [create_magic_link_new db email tok1 t1 hu h1]
    have hu1 : findUserByEmail
        { users := db.users ++
            [{ id := db.next_user_id, email := email, name := localPart email }],
          magic_links := db.magic_links ++ [newLink tok1 t1 db.next_user_id],
          next_user_id := db.next_user_id + 1 } email =
        some { id := db.next_user_id, email := email, name := localPart email } :=
      find?_append_singleton _ _ _ hu (by simp)
    have hfresh2 : findLinkByToken
        { users := db.users ++
            [{ id := db.next_user_id, email := email, name := localPart email }],
          magic_links := db.magic_links ++ [newLink tok1 t1 db.next_user_id],
          next_user_id := db.next_user_id + 1 } tok2 = none :=
      find?_append_singleton_none _ _ _ h2 hpred1
    rw [create_magic_link_existing _ email tok2 t2 _ hu1 hfresh2]
    refine ⟨newLink tok1 t1 db.next_user_id, newLink tok2 t2 db.next_user_id,
      ?_, ?_, rfl, by simpa [newLink] using hne, rfl, rfl, rfl, rfl, rfl⟩
    · exact find?_append_keep _ _ _ _
        (find?_append_singleton _ _ _ h1 (by simp [newLink]))
    · exact find?_append_singleton _ _ _ hfresh2 (by simp [newLink])
  · rw [create_magic_link_existing db email tok1 t1 u hu h1]
    have hpred1u : ((newLink tok1 t1 u.id).token == tok2) = false := by
      simp [newLink]
      exact hne
    have hu1 : findUserByEmail
        { db with magic_links := db.magic_links ++ [newLink tok1 t1 u.id] }
        email = some u := hu
    have hfresh2 : findLinkByToken
        { db with magic_links := db.magic_links ++ [newLink tok1 t1 u.id] }
        tok2 = none :=
      find?_append_singleton_none _ _ _ h2 hpred1u
    rw [create_magic_link_existing _ email tok2 t2 _ hu1 hfresh2]
    refine ⟨newLink tok1 t1 u.id, newLink tok2 t2 u.id,
      ?_, ?_, rfl, by simpa [newLink] using hne, rfl, rfl, rfl, rfl, rfl⟩
    · exact find?_append_keep _ _ _ _
        (find?_append_singleton _ _ _ h1 (by simp [newLink]))
    · exact find?_append_singleton _ _ _ hfresh2 (by simp [newLink])

/-- Empty starting state. -/
def dbEmpty : DB := { users := [], magic_links := [], next_user_id := 0 }

theorem issue_twice_same_account_witness :
    ∃ l1 l2,
      findLinkByToken (create_magic_link (create_magic_link dbEmpty "a@x.com"
        "t1" 0).2 "a@x.com" "t2" 5).2 "t1" = some l1 ∧
      findLinkByToken (create_magic_link (create_magic_link dbEmpty "a@x.com"
        "t1" 0).2 "a@x.com" "t2" 5).2 "t2" = some l2 ∧
      l1.user_id = l2.user_id ∧ l1.token ≠ l2.token ∧
      l1.used_at = none ∧ l2.used_at = none ∧
      l1.expires_at = 0 + 15 * 60 ∧ l2.expires_at = 5 + 15 * 60 ∧
      (create_magic_link (create_magic_link dbEmpty "a@x.com" "t1" 0).2
        "a@x.com" "t2" 5).2.users =
        (create_magic_link dbEmpty "a@x.com" "t1" 0).2.users :=
  issue_twice_same_account dbEmpty "a@x.com" "t1" "t2" 0 5
    (by decide) (by decide) (by decide)

/-- The read phase of one `consume_token` call: the `validate_token`
check and the answer the call will give if it proceeds. -/
def consume_validate_phase (db : DB) (tok : String) (now : Nat) :
    Bool × Option User :=
  ((validate_token db tok now).1, (validate_token db tok now).2.1)

/-- The write phase of one `consume_token` call: the re-query of the link row
and the committed `mark_as_used` UPDATE. -/
def consume_write_phase (db : DB) (tok : String) (now : Nat) : DB :=
  { db with magic_links := mark_used_first db.magic_links tok now }

/-- Inversion: a successful validation exhibits the found link, its validity
and the owning user. -/
theorem validate_token_true_inv (db : DB) (tok : String) (now : Nat)
    (h : (validate_token db tok now).1 = true) :
    ∃ ml u, findLinkByToken db tok = some ml ∧ ml.is_valid now = true ∧
      findUserById db ml.user_id = some u ∧
      validate_token db tok now = (true, some u, some ml) := by
  rcases hfind : findLinkByToken db tok with _ | ml
  · rw [validate_token_of_not_found db tok now hfind] at h
    simp at h
  · cases hv : ml.is_valid now with
    | false =>
      rw [validate_token_of_invalid db tok now ml hfind hv] at h
      simp at h
    | true =>
      rcases hu : findUserById db ml.user_id with _ | u
      · rw [validate_token_of_orphaned db tok now ml hfind hv hu] at h
        simp at h
      · exact ⟨ml, u, rfl, hv, hu,
          validate_token_of_valid db tok now ml u hfind hv hu⟩

/-- Faithfulness of the two-phase decomposition: an uninterleaved
`consume_token` call is exactly its read phase followed, when the read
reported valid, by its write phase. -/
theorem consume_token_eq_phases (db : DB) (tok : String) (now : Nat) :
    consume_token db tok now =
      (consume_validate_phase db tok now,
       if (consume_validate_phase db tok now).1 then
         consume_write_phase db tok now
       else db) := by
  cases hv : (validate_token db tok now).1 with
  | false =>
    have hshape := validate_token_false_shape db tok now hv
    rw [consume_token_of_validate_false db tok now hv]
    simp [consume_validate_phase, hshape]
  | true =>
    obtain ⟨ml, u, hfind, hmlv, hu, hval⟩ := validate_token_true_inv db tok now hv
    rw [consume_token_of_valid db tok now ml u hfind hmlv hu]
    simp [consume_validate_phase, consume_write_phase, hval]

/-- Two concurrent `consume_token(T)` requests under the interleaving in
which both sessions run their `validate_token` read before either commits its
`mark_as_used` write — nothing in `consume_token` locks the row or makes the
check-then-update a single serializable unit of work, so this schedule is
available to the database. Returns each call's reply and the final state. -/
def consume_two_interleaved (db : DB) (tok : String) (now : Nat) :
    (Bool × Option User) × (Bool × Option User) × DB :=
  let r1 := consume_validate_phase db tok now
  let r2 := consume_validate_phase db tok now
  let db1 := if r1.1 then consume_write_phase db tok now else db
  let db2 := if r2.1 then consume_write_phase db1 tok now else db1
  (r1, r2, db2)

/-- C3 (code bug): on a valid token, the interleaving where both requests
validate before either commits yields two successes, not exactly one — the
exactly-one-winner requirement is violated by the unlocked
validate-then-re-query-then-update sequence in `consume_token`. -/
theorem concurrent_consume_yields_two_successes :
    (consume_two_interleaved dbLiveLink "t" 10).1.1 = true ∧
    (consume_two_interleaved dbLiveLink "t" 10).2.1.1 = true := by
  decide

end PyLife
